import Mathlib

/-!
Verification of the bend-test signal-processing and stress-calculation
pipeline of the voxeljet quality app (src/app.py, tab 2).

The pipeline is embedded shallowly over exact rationals:

* a CSV cell is a `Cell` (finite numeric value, non-finite numeric,
  non-numeric text, or missing);
* the ingestor drops all-missing columns, requires at least 6 remaining
  columns and designates the 6th remaining column as the force column
  (app.py lines 360-373);
* cleaning drops non-numeric / non-finite forces, drops negative forces,
  applies a mean + 3 * std upper-bound outlier filter guarded by std > 0,
  and trims the samples before the first force exceeding 1 % of the
  maximum force (app.py lines 376-397);
* the peak force feeds the 3-point bend formula and the pass / fail
  verdict against the nominal strength 260 N/cm2 (app.py lines 404-414).

Floating-point arithmetic of the original is modelled by exact rational
arithmetic.  The standard deviation (a square root, irrational in
general) is eliminated: the only uses in app.py are the guard
`std_force > 0`, equivalent to `variance > 0`, and the bound
`x <= mean + 3 * std`, equivalent to
`x <= mean or (x - mean)^2 <= 9 * variance` because both sides of the
squared comparison are nonnegative when `mean < x`.  The sample variance
(pandas ddof = 1) is `none` for fewer than two samples, mirroring the
NaN produced by pandas, which fails the `> 0` guard.
-/

namespace BendTest

/-- One CSV cell as pandas sees it after `read_csv`: a finite number, a
non-finite number (inf / -inf), non-numeric text, or a missing value. -/
inductive Cell
  | num (val : ℚ)
  | nonfinite
  | text
  | empty
deriving DecidableEq

/-- A missing cell (NaN): the only kind dropped by `dropna(axis=1, how='all')`. -/
def Cell.isMissing : Cell → Bool
  | .empty => true
  | _ => false

/-- The numeric force a cell yields: `replace([inf, -inf], nan)` followed by
`to_numeric(errors='coerce')` and `dropna` keeps exactly finite numbers
(app.py lines 376-378). -/
def Cell.force? : Cell → Option ℚ
  | .num v => some v
  | _ => none

/-- A raw CSV row. -/
abbrev Row := List Cell

/-- A raw CSV table (rows in file order; pandas pads ragged rows with NaN,
modelled by reading a missing cell past the end of a row). -/
abbrev Table := List Row

/-- Pass / fail verdict. -/
inductive Status
  | pass
  | fail
deriving DecidableEq

/-- Test-bar geometry in millimetres (app.py lines 355-357). -/
structure TestGeometry where
  support_span_mm : ℚ
  width_mm : ℚ
  height_mm : ℚ
deriving DecidableEq

/-- The per-file result record (app.py lines 404-414). -/
structure TestResult where
  max_force_n : ℚ
  bending_strength_ncm2 : ℚ
  status : Status
deriving DecidableEq

/-- The two per-file failures the processing loop reports: fewer than six
columns (app.py lines 367-369) and no valid force data after cleaning
(app.py lines 399-401). -/
inductive PipeError
  | malformedInput
  | emptySignal
deriving DecidableEq

/-- `df['force_n'].mean()` (app.py line 385); the empty case (NaN in pandas)
is never used because the variance guard rejects it first. -/
def mean_force (l : List ℚ) : ℚ := l.sum / l.length

/-- The square of `df['force_n'].std()` (app.py line 386), pandas sample
variance with ddof = 1; `none` models the NaN returned for fewer than two
samples. -/
def var_force (l : List ℚ) : Option ℚ :=
  if 2 ≤ l.length then
    some (((l.map (fun x => (x - mean_force l) ^ 2)).sum) / ((l.length : ℚ) - 1))
  else none

/-- Cleaning step 1 (app.py lines 376-378): keep only rows whose force cell
is a finite number. -/
def dropInvalid (cells : List Cell) : List ℚ := cells.filterMap Cell.force?

/-- Cleaning step 2 (app.py line 382): `df = df[df['force_n'] >= 0]`. -/
def dropNegative (l : List ℚ) : List ℚ := l.filter (fun x => decide (0 ≤ x))

/-- Cleaning step 3 (app.py lines 384-388): when `std_force > 0`, keep the
samples with `force_n <= mean_force + 3 * std_force`.  Expressed on the
variance: the guard is `var > 0` and the bound is
`x <= mean or (x - mean)^2 <= 9 * var`. -/
def outlierFilter (l : List ℚ) : List ℚ :=
  match var_force l with
  | none => l
  | some v =>
    if 0 < v then
      l.filter (fun x => decide (x ≤ mean_force l ∨ (x - mean_force l) ^ 2 ≤ 9 * v))
    else l

/-- Cleaning step 4 (app.py lines 392-397): when the frame is non-empty,
take `threshold = max_force * 0.01`, find the first row with
`force_n > threshold` and keep the rows from it on; when no row exceeds
the threshold (`start_index` is null) keep everything. -/
def startTrim (l : List ℚ) : List ℚ :=
  match l.max? with
  | none => l
  | some m =>
    match l.findIdx? (fun x => decide (m * (1 / 100) < x)) with
    | some i => l.drop i
    | none => l

/-- The whole cleaning stage on the force values of the surviving rows
(app.py lines 380-397). -/
def cleanForces (l : List ℚ) : List ℚ := startTrim (outlierFilter (dropNegative l))

/-- `nominal_strength = 260` N/cm2 (app.py line 263). -/
def nominal_strength : ℚ := 260

/-- The stress computation of app.py lines 409-413:
`L_cm = L*0.1`, `b_cm = b*0.1`, `h_cm = h*0.1`,
`(3 * max_force_n * L_cm) / (2 * b_cm * h_cm**2)`. -/
def bending_strength (max_force_n support_span_mm width_mm height_mm : ℚ) : ℚ :=
  (3 * max_force_n * (support_span_mm * (1 / 10))) /
    (2 * (width_mm * (1 / 10)) * (height_mm * (1 / 10)) ^ 2)

/-- `status = Pass if bending_strength >= nominal_strength else Fail`
(app.py line 414). -/
def statusOf (s : ℚ) : Status := if nominal_strength ≤ s then .pass else .fail

/-- The record built from the peak force and the geometry
(app.py lines 404-439). -/
def resultOf (max_force_n : ℚ) (g : TestGeometry) : TestResult :=
  let s := bending_strength max_force_n g.support_span_mm g.width_mm g.height_mm
  ⟨max_force_n, s, statusOf s⟩

/-- Number of columns pandas materialises: the longest row. -/
def numCols (t : Table) : ℕ := t.foldr (fun r acc => max r.length acc) 0

/-- `dropna(axis=1, how='all')` keeps a column when some row has a
non-missing cell there (app.py line 364). -/
def colKept (t : Table) (j : ℕ) : Bool := t.any (fun r => !(r.getD j .empty).isMissing)

/-- The column positions surviving `dropna(axis=1, how='all')`, in order. -/
def keptCols (t : Table) : List ℕ := (List.range (numCols t)).filter (colKept t)

/-- The force column: the sixth remaining column, `df.iloc[:, 5]`
(app.py line 373); only used when at least six columns remain. -/
def forceCells (t : Table) : List Cell :=
  t.map (fun r => r.getD ((keptCols t).getD 5 0) .empty)

/-- One file through the processing loop of app.py lines 360-414: column
validation, force extraction, cleaning, peak and stress.  The two error
branches are the `continue` branches at lines 367-369 and 399-401. -/
def processFile (t : Table) (g : TestGeometry) : Except PipeError TestResult :=
  if (keptCols t).length < 6 then .error .malformedInput
  else
    match (cleanForces (dropInvalid (forceCells t))).max? with
    | none => .error .emptySignal
    | some m => .ok (resultOf m g)

instance : Std.Antisymm (fun a b : ℚ => a ≤ b) := ⟨fun h h' => le_antisymm h h'⟩

lemma nonneg_of_mem_dropNegative {l : List ℚ} {x : ℚ} (hx : x ∈ dropNegative l) : 0 ≤ x := by
  unfold dropNegative at hx
  exact of_decide_eq_true (List.mem_filter.mp hx).2

lemma mem_of_mem_outlierFilter {l : List ℚ} {x : ℚ} (hx : x ∈ outlierFilter l) : x ∈ l := by
  unfold outlierFilter at hx
  split at hx
  · exact hx
  · split at hx
    · exact (List.mem_filter.mp hx).1
    · exact hx

lemma mem_of_mem_startTrim {l : List ℚ} {x : ℚ} (hx : x ∈ startTrim l) : x ∈ l := by
  unfold startTrim at hx
  split at hx
  · exact hx
  · split at hx
    · exact (List.drop_sublist _ _).subset hx
    · exact hx

/-- Claim C5: every sample retained after the cleaning stage (drop non-finite,
drop negative, outlier rejection, start detection) has a nonnegative force. -/
theorem cleaned_forces_nonneg (l : List ℚ) (x : ℚ) (hx : x ∈ cleanForces l) : 0 ≤ x := by
  unfold cleanForces at hx
  exact nonneg_of_mem_dropNegative (mem_of_mem_outlierFilter (mem_of_mem_startTrim hx))

/-- Witness for C5 at the concrete input [-3, 5]: the retained sample 5 is
nonnegative. -/
theorem cleaned_forces_nonneg_witness :
    (5 : ℚ) ∈ cleanForces [-3, 5] ∧ (0 : ℚ) ≤ 5 :=
  ⟨by norm_num [cleanForces, dropNegative, outlierFilter, startTrim, var_force, mean_force,
      List.filter, List.max?, List.findIdx?],
   cleaned_forces_nonneg [-3, 5] 5
     (by norm_num [cleanForces, dropNegative, outlierFilter, startTrim, var_force, mean_force,
        List.filter, List.max?, List.findIdx?])⟩

/-- Claim C9: a force sequence with standard deviation zero (constant signal)
skips the outlier bound test entirely: step 3 returns it unchanged. -/
theorem constant_signal_skips_filter (l : List ℚ) (h : var_force l = some 0) :
    outlierFilter l = l := by
  unfold outlierFilter
  rw [h]
  simp

/-- Witness for C9 at the constant signal [7, 7]. -/
theorem constant_signal_skips_filter_witness :
    var_force [7, 7] = some 0 ∧ outlierFilter [7, 7] = [7, 7] :=
  ⟨by norm_num [var_force, mean_force],
   constant_signal_skips_filter [7, 7] (by norm_num [var_force, mean_force])⟩

/-- Claim C1: for positive geometry the stress calculator returns exactly
(3 F (L*0.1)) / (2 (b*0.1) (h*0.1)^2) and the verdict is Pass exactly when
that value reaches the nominal strength 260 N/cm2. -/
theorem bend_strength_formula_and_status (F L b h : ℚ)
    (hL : 0 < L) (hb : 0 < b) (hh : 0 < h) :
    (resultOf F ⟨L, b, h⟩).bending_strength_ncm2 =
      (3 * F * (L * (1 / 10))) / (2 * (b * (1 / 10)) * (h * (1 / 10)) ^ 2) ∧
    ((resultOf F ⟨L, b, h⟩).status = Status.pass ↔
      (260 : ℚ) ≤ (resultOf F ⟨L, b, h⟩).bending_strength_ncm2) := by
  refine ⟨rfl, ?_⟩
  show statusOf (bending_strength F L b h) = Status.pass ↔
    (260 : ℚ) ≤ bending_strength F L b h
  unfold statusOf nominal_strength
  split
  · simp_all
  · simp_all

/-- Witness for C1 at the spec's concrete input: F = 1515.921 N,
L = 100 mm, b = h = 22.4 mm; the strength equals
(3*1515.921*10)/(2*2.24*2.24^2) and the verdict is Pass. -/
theorem bend_strength_formula_and_status_witness :
    (0 : ℚ) < 100 ∧ (0 : ℚ) < 224 / 10 ∧
    (resultOf (1515921 / 1000) ⟨100, 224 / 10, 224 / 10⟩).bending_strength_ncm2 =
      (3 * (1515921 / 1000) * 10) / (2 * (224 / 100) * (224 / 100) ^ 2) ∧
    (resultOf (1515921 / 1000) ⟨100, 224 / 10, 224 / 10⟩).status = Status.pass := by
  have h := bend_strength_formula_and_status (1515921 / 1000) 100 (224 / 10) (224 / 10)
    (by norm_num) (by norm_num) (by norm_num)
  refine ⟨by norm_num, by norm_num, h.1.trans (by norm_num), h.2.mpr ?_⟩
  rw [h.1]
  norm_num

lemma drop_findIdx?_eq_dropWhile {p : ℚ → Bool} {l : List ℚ} {i : ℕ}
    (h : l.findIdx? p = some i) : l.drop i = l.dropWhile (fun x => !p x) := by
  induction l generalizing i with
  | nil => simp [List.findIdx?] at h
  | cons a as ih =>
    rw [List.findIdx?_cons] at h
    by_cases hpa : p a = true
    · rw [if_pos hpa] at h
      obtain rfl : i = 0 := (Option.some.inj h).symm
      simp [List.dropWhile_cons, hpa]
    · rw [if_neg hpa, List.findIdx?_succ] at h
      obtain ⟨j, hj, rfl⟩ : ∃ j, as.findIdx? p = some j ∧ i = j + 1 := by
        cases hfj : as.findIdx? p with
        | none => rw [hfj] at h; simp at h
        | some j => rw [hfj] at h; exact ⟨j, rfl, (Option.some.inj h).symm⟩
      rw [List.drop_succ_cons, List.dropWhile_cons_of_pos (by simp [hpa]), ih hj]

lemma startTrim_of_any {l : List ℚ} {m : ℚ} (hm : l.max? = some m)
    (hex : ∃ x ∈ l, m * (1 / 100) < x) :
    startTrim l = l.dropWhile (fun x => !(decide (m * (1 / 100) < x))) := by
  unfold startTrim
  simp only [hm]
  cases hf : l.findIdx? (fun x => decide (m * (1 / 100) < x)) with
  | none =>
    exfalso
    rw [List.findIdx?_eq_none_iff] at hf
    obtain ⟨x, hx, hlt⟩ := hex
    exact (of_decide_eq_false (hf x hx)) hlt
  | some i =>
    simp only [hf]
    exact drop_findIdx?_eq_dropWhile hf

lemma startTrim_of_none {l : List ℚ} {m : ℚ} (hm : l.max? = some m)
    (hall : ∀ x ∈ l, ¬ m * (1 / 100) < x) :
    startTrim l = l := by
  unfold startTrim
  simp only [hm, List.findIdx?_eq_none_iff.mpr
    (fun x hx => decide_eq_false (hall x hx))]

/-- Claim C2 (amended): start-of-test detection works against the fixed
fraction 1 % of the maximum of the whole cleaned sequence, not a running
maximum: it discards exactly the longest prefix of samples that do not
exceed max/100 when some sample exceeds that threshold, and keeps the
whole sequence otherwise. -/
theorem start_detection_global_max (l : List ℚ) (m : ℚ) (hm : l.max? = some m) :
    ((∃ x ∈ l, m * (1 / 100) < x) →
      startTrim l = l.dropWhile (fun x => !(decide (m * (1 / 100) < x)))) ∧
    ((∀ x ∈ l, ¬ m * (1 / 100) < x) → startTrim l = l) :=
  ⟨fun hex => startTrim_of_any hm hex, fun hall => startTrim_of_none hm hall⟩

/-- The spec's synthetic start-detection sequence. -/
def seq10 : List ℚ := [50, 48, 2, 1 / 2, 1, 5, 20, 80, 95, 60]

/-- Witness for C2's amended theorem at the spec's synthetic sequence:
its maximum is 95, the first sample 50 already exceeds 95/100, so the
dropped prefix is empty. -/
theorem start_detection_global_max_witness :
    seq10.max? = some 95 ∧
    startTrim seq10 = seq10.dropWhile (fun x => !(decide ((95 : ℚ) * (1 / 100) < x))) := by
  have hm : seq10.max? = some 95 := by norm_num [seq10, List.max?, List.foldl, max_def]
  exact ⟨hm, (start_detection_global_max seq10 95 hm).1
    ⟨50, by simp [seq10], by norm_num⟩⟩

/-- Counterexample to claim C2 as stated: on [50, 48, 2, 0.5, 1, 5, 20, 80,
95, 60] the cleaning pipeline discards nothing at all — in particular the
prefix 50, 48 is retained, not discarded, because 50 already exceeds the
threshold (1 % of the global maximum 95; the code has no configurable
fraction and no running maximum). -/
theorem start_detection_claim_counterexample : cleanForces seq10 = seq10 := by
  have h2 : dropNegative seq10 = seq10 := by
    norm_num [dropNegative, seq10, List.filter]
  have h3 : outlierFilter seq10 = seq10 := by
    norm_num [outlierFilter, var_force, mean_force, seq10, List.filter]
  have h4 : startTrim seq10 = seq10 := by
    norm_num [startTrim, seq10, List.max?, List.foldl, max_def, List.findIdx?]
  unfold cleanForces
  rw [h2, h3, h4]

/-- Claim C10: start-of-test trimming never discards the peak: the maximum
after the trim equals the maximum before it, and a sequence whose maximum
is 0 is left untrimmed. -/
theorem start_trim_preserves_peak (l : List ℚ) (hne : l ≠ []) :
    (startTrim l).max? = l.max? ∧ (l.max? = some 0 → startTrim l = l) := by
  obtain ⟨m, hm⟩ : ∃ m, l.max? = some m := by
    cases l with
    | nil => exact absurd rfl hne
    | cons a as => exact ⟨as.foldl max a, rfl⟩
  have hmax := (List.max?_eq_some_iff (fun a => le_refl a) (fun a b => max_choice a b)
    (fun a b c => max_le_iff)).mp hm
  by_cases hex : ∃ x ∈ l, m * (1 / 100) < x
  · have htrim := startTrim_of_any hm hex
    obtain ⟨x, hxl, hxlt⟩ := hex
    have hxm : x ≤ m := hmax.2 x hxl
    have hmpos : 0 < m := by linarith
    have hmem : m ∈ l.dropWhile (fun x => !(decide (m * (1 / 100) < x))) := by
      have hsplit := List.takeWhile_append_dropWhile
        (fun x => !(decide (m * (1 / 100) < x))) l
      rcases List.mem_append.mp (hsplit.symm ▸ hmax.1) with htk | hdr
      · exfalso
        have hnot : ¬ m * (1 / 100) < m := by simpa using List.mem_takeWhile_imp htk
        exact hnot (by linarith)
      · exact hdr
    refine ⟨?_, ?_⟩
    · rw [htrim, (List.max?_eq_some_iff (fun a => le_refl a) (fun a b => max_choice a b)
        (fun a b c => max_le_iff)).mpr
          ⟨hmem, fun b hb => hmax.2 b ((List.dropWhile_sublist _).subset hb)⟩, hm]
    · intro h0
      obtain rfl : m = 0 := Option.some.inj (hm.symm.trans h0)
      exact absurd hmpos (lt_irrefl 0)
  · push_neg at hex
    have htrim := startTrim_of_none hm (fun x hx => not_lt.mpr (hex x hx))
    exact ⟨by rw [htrim], fun _ => htrim⟩

/-- Witness for C10 at [0, 50, 100]: the trim drops the leading 0 and the
maximum 100 is preserved. -/
theorem start_trim_preserves_peak_witness :
    ([(0 : ℚ), 50, 100] ≠ []) ∧
    ((startTrim [(0 : ℚ), 50, 100]).max? = [(0 : ℚ), 50, 100].max? ∧
      ([(0 : ℚ), 50, 100].max? = some 0 →
        startTrim [(0 : ℚ), 50, 100] = [(0 : ℚ), 50, 100])) ∧
    startTrim [(0 : ℚ), 50, 100] = [(50 : ℚ), 100] :=
  ⟨by simp, start_trim_preserves_peak _ (by simp),
   by norm_num [startTrim, List.max?, List.foldl, max_def, List.findIdx?]⟩

/-- Claim C8 (amended): on a force sequence on which every cleaning stage is
already a no-op — all samples nonnegative, the sigma filter removes
nothing, the start trim removes nothing — re-running the pipeline yields
the identical sequence, hence the identical peak force and TestResult. -/
theorem pipeline_idempotent_on_cleaned (f : List ℚ) (g : TestGeometry)
    (h0 : ∀ x ∈ f, 0 ≤ x) (h3 : outlierFilter f = f) (h4 : startTrim f = f) :
    cleanForces f = f ∧
    (cleanForces f).max?.map (fun m => resultOf m g) =
      f.max?.map (fun m => resultOf m g) := by
  have h2 : dropNegative f = f :=
    List.filter_eq_self.mpr (fun a ha => decide_eq_true (h0 a ha))
  have hc : cleanForces f = f := by
    unfold cleanForces
    rw [h2, h3, h4]
  exact ⟨hc, by rw [hc]⟩

/-- Witness for C8's amended theorem at [10, 20, 30], on which every
cleaning stage is a no-op. -/
theorem pipeline_idempotent_on_cleaned_witness :
    (∀ x ∈ [(10 : ℚ), 20, 30], 0 ≤ x) ∧
    outlierFilter [(10 : ℚ), 20, 30] = [(10 : ℚ), 20, 30] ∧
    startTrim [(10 : ℚ), 20, 30] = [(10 : ℚ), 20, 30] ∧
    cleanForces [(10 : ℚ), 20, 30] = [(10 : ℚ), 20, 30] := by
  have h0 : ∀ x ∈ [(10 : ℚ), 20, 30], 0 ≤ x := by
    intro x hx
    fin_cases hx <;> norm_num
  have h3 : outlierFilter [(10 : ℚ), 20, 30] = [(10 : ℚ), 20, 30] := by
    norm_num [outlierFilter, var_force, mean_force, List.filter]
  have h4 : startTrim [(10 : ℚ), 20, 30] = [(10 : ℚ), 20, 30] := by
    norm_num [startTrim, List.max?, List.foldl, max_def, List.findIdx?]
  exact ⟨h0, h3, h4,
    (pipeline_idempotent_on_cleaned _ ⟨100, 224 / 10, 224 / 10⟩ h0 h3 h4).1⟩

/-- The sequence on which the pipeline is not idempotent: the first run
removes 1000 (above mean + 3 std), after which 100 is above the
recomputed bound, so a second run removes it too. -/
def x14 : List ℚ := [100, 0, 0, 0, 0, 0, 0, 0, 0, 0, 0, 0, 0, 1000]

/-- Counterexample to claim C8 as stated: the pipeline is not idempotent on
its own output — re-running it on cleanForces x14 changes the sequence and
changes the peak force (100 becomes 0). -/
theorem pipeline_not_idempotent_counterexample :
    cleanForces (cleanForces x14) ≠ cleanForces x14 ∧
    (cleanForces (cleanForces x14)).max? ≠ (cleanForces x14).max? := by
  have h1 : cleanForces x14 = [100, 0, 0, 0, 0, 0, 0, 0, 0, 0, 0, 0, 0] := by
    have h2 : dropNegative x14 = x14 := by
      norm_num [dropNegative, x14, List.filter]
    have h3 : outlierFilter x14 = [100, 0, 0, 0, 0, 0, 0, 0, 0, 0, 0, 0, 0] := by
      norm_num [outlierFilter, var_force, mean_force, x14, List.filter]
    have h4 : startTrim [(100 : ℚ), 0, 0, 0, 0, 0, 0, 0, 0, 0, 0, 0, 0] =
        [100, 0, 0, 0, 0, 0, 0, 0, 0, 0, 0, 0, 0] := by
      norm_num [startTrim, List.max?, List.foldl, max_def, List.findIdx?]
    unfold cleanForces
    rw [h2, h3, h4]
  have h5 : cleanForces [(100 : ℚ), 0, 0, 0, 0, 0, 0, 0, 0, 0, 0, 0, 0] =
      [0, 0, 0, 0, 0, 0, 0, 0, 0, 0, 0, 0] := by
    have h2 : dropNegative [(100 : ℚ), 0, 0, 0, 0, 0, 0, 0, 0, 0, 0, 0, 0] =
        [100, 0, 0, 0, 0, 0, 0, 0, 0, 0, 0, 0, 0] := by
      norm_num [dropNegative, List.filter]
    have h3 : outlierFilter [(100 : ℚ), 0, 0, 0, 0, 0, 0, 0, 0, 0, 0, 0, 0] =
        [0, 0, 0, 0, 0, 0, 0, 0, 0, 0, 0, 0] := by
      norm_num [outlierFilter, var_force, mean_force, List.filter]
    have h4 : startTrim [(0 : ℚ), 0, 0, 0, 0, 0, 0, 0, 0, 0, 0, 0] =
        [0, 0, 0, 0, 0, 0, 0, 0, 0, 0, 0, 0] := by
      norm_num [startTrim, List.max?, List.foldl, max_def, List.findIdx?]
    unfold cleanForces
    rw [h2, h3, h4]
  rw [h1, h5]
  constructor
  · simp
  · norm_num [List.max?, List.foldl, max_def]

/-- A table whose force column (the sixth) is entirely negative: nothing
survives cleaning. -/
def tNeg : Table :=
  [[.num 0, .num 0, .num 0, .num 0, .num 0, .num (-1)],
   [.num 0, .num 0, .num 0, .num 0, .num 0, .num (-2)]]

/-- Claim C4: when zero samples survive cleaning, the file is reported as
EmptySignal (the per-file warning and continue at app.py lines 399-401),
not a crash and not a zero-force result. -/
theorem empty_signal_on_empty_cleaning (t : Table) (g : TestGeometry)
    (h6 : ¬ (keptCols t).length < 6)
    (hclean : cleanForces (dropInvalid (forceCells t)) = []) :
    processFile t g = .error .emptySignal := by
  unfold processFile
  rw [if_neg h6, hclean]
  rfl

/-- Witness for C4 at a table whose force values are all negative. -/
theorem empty_signal_on_empty_cleaning_witness :
    (¬ (keptCols tNeg).length < 6) ∧
    cleanForces (dropInvalid (forceCells tNeg)) = [] ∧
    processFile tNeg ⟨100, 224 / 10, 224 / 10⟩ = .error .emptySignal := by
  have h6 : ¬ (keptCols tNeg).length < 6 := by decide
  have hclean : cleanForces (dropInvalid (forceCells tNeg)) = [] := by decide
  exact ⟨h6, hclean, empty_signal_on_empty_cleaning tNeg _ h6 hclean⟩

/-- Claim C3 (amended): the code performs no geometry validation at all:
whether a file succeeds or fails is independent of the geometry, so no
non-positive dimension is ever rejected (the UI merely clamps the inputs
to at least 1.0 mm). -/
theorem geometry_independent_errors (t : Table) (g g' : TestGeometry) :
    (processFile t g).isOk = (processFile t g').isOk := by
  unfold processFile
  by_cases h : (keptCols t).length < 6
  · rw [if_pos h, if_pos h]
  · rw [if_neg h, if_neg h]
    cases hmax : (cleanForces (dropInvalid (forceCells t))).max? with
    | none => rfl
    | some m => rfl

/-- A well-formed one-row table with force 100. -/
def tW : Table := [[.num 0, .num 0, .num 0, .num 0, .num 0, .num 100]]

/-- Counterexample to claim C3 as stated: a width of 0 mm is not rejected —
the computation succeeds instead of failing with InvalidGeometry (no such
error exists in the code; over exact rationals the division by zero
totalises to 0, where numpy would produce an infinite strength). -/
theorem width_zero_not_rejected :
    (processFile tW ⟨100, 0, 224 / 10⟩).isOk = true := by
  have hmax : (cleanForces (dropInvalid (forceCells tW))).max? = some 100 := by
    have hforce : dropInvalid (forceCells tW) = [100] := by decide
    rw [hforce]
    have hclean : cleanForces [(100 : ℚ)] = [100] := by
      norm_num [cleanForces, dropNegative, outlierFilter, startTrim, var_force,
        List.filter, List.max?, List.foldl, List.findIdx?]
    rw [hclean]
    rfl
  unfold processFile
  rw [if_neg (by decide), hmax]
  rfl

/-- A six-column table whose force column is non-numeric in a majority of
rows (two of three) but numeric in one. -/
def t7 : Table :=
  [[.num 1, .num 1, .num 1, .num 1, .num 1, .text],
   [.num 1, .num 1, .num 1, .num 1, .num 1, .text],
   [.num 1, .num 1, .num 1, .num 1, .num 1, .num 100]]

/-- Claim C7 (amended): MalformedInput occurs exactly when fewer than six
columns remain after dropping the all-missing columns; non-numeric cells
in the force column are dropped row by row whatever their proportion. -/
theorem malformed_iff_too_few_columns (t : Table) (g : TestGeometry) :
    processFile t g = .error .malformedInput ↔ (keptCols t).length < 6 := by
  unfold processFile
  by_cases h : (keptCols t).length < 6
  · rw [if_pos h]
    exact ⟨fun _ => h, fun _ => rfl⟩
  · rw [if_neg h]
    refine ⟨fun hc => ?_, fun hc => absurd hc h⟩
    exfalso
    cases hmax : (cleanForces (dropInvalid (forceCells t))).max? with
    | none => rw [hmax] at hc; exact PipeError.noConfusion (Except.error.inj hc)
    | some m => rw [hmax] at hc; exact Except.noConfusion hc

/-- Counterexample to claim C7 as stated: a majority-non-numeric force
column does not produce MalformedInput — the two non-numeric rows are
dropped and the file still yields a result from the remaining row. -/
theorem majority_nonnumeric_not_malformed :
    processFile t7 ⟨100, 224 / 10, 224 / 10⟩ =
      .ok (resultOf 100 ⟨100, 224 / 10, 224 / 10⟩) := by
  have hmax : (cleanForces (dropInvalid (forceCells t7))).max? = some 100 := by
    have hforce : dropInvalid (forceCells t7) = [100] := by decide
    rw [hforce]
    have hclean : cleanForces [(100 : ℚ)] = [100] := by
      norm_num [cleanForces, dropNegative, outlierFilter, startTrim, var_force,
        List.filter, List.max?, List.foldl, List.findIdx?]
    rw [hclean]
    rfl
  unfold processFile
  rw [if_neg (by decide), hmax]

/-- Modelled from the spec: the quartile of a sample list, taken on the
sorted samples by linear interpolation (the pandas default); app.py
contains no IQR computation, so this follows the spec's words
(Q1, Q3 of section 4.2 step 3b). -/
def quantileQ (l : List ℚ) (q : ℚ) : ℚ :=
  let s := l.insertionSort (· ≤ ·)
  let pos := q * ((s.length : ℚ) - 1)
  let i := (Int.floor pos).toNat
  let x := s.getD i 0
  x + (pos - (i : ℚ)) * (s.getD (i + 1) x - x)

/-- Modelled from the spec: how many samples the IQR-based filter with
bounds Q1 - 1.5 IQR .. Q3 + 1.5 IQR would remove; app.py contains no such
filter and no 30 % guard. -/
def iqrRemovedCount (l : List ℚ) : ℕ :=
  let q1 := quantileQ l (1 / 4)
  let q3 := quantileQ l (3 / 4)
  let iqr := q3 - q1
  (l.filter (fun x => !(decide (q1 - (3 / 2) * iqr ≤ x ∧ x ≤ q3 + (3 / 2) * iqr)))).length

/-- Thirteen samples: quartiles both 10, so the IQR bounds [10, 10] would
remove six samples (more than 30 %), while the code's sigma filter still
removes the 1000. -/
def x13 : List ℚ := [9, 9, 9, 10, 10, 10, 10, 10, 10, 10, 11, 11, 1000]

/-- Counterexample to claim C6 as stated: on x13 the IQR filter would
remove more than 30 % of the samples (6 of 13), yet step 3 does not
return its input unchanged — the code applies its mean + 3 std bound
unconditionally (there is no IQR option and no 30 % guard). -/
theorem iqr_guard_absent_counterexample :
    3 * x13.length < 10 * iqrRemovedCount x13 ∧ outlierFilter x13 ≠ x13 := by
  have hs : x13.insertionSort (· ≤ ·) =
      [9, 9, 9, 10, 10, 10, 10, 10, 10, 10, 11, 11, 1000] := by
    norm_num [x13, List.insertionSort, List.orderedInsert]
  have hq1 : quantileQ x13 (1 / 4) = 10 := by
    simp only [quantileQ, hs]
    norm_num [List.getD]
    simp
  have hq3 : quantileQ x13 (3 / 4) = 10 := by
    simp only [quantileQ, hs]
    norm_num [List.getD]
    simp
  constructor
  · have hcount : iqrRemovedCount x13 = 6 := by
      simp only [iqrRemovedCount, hq1, hq3]
      norm_num [x13, List.filter]
    rw [hcount]
    norm_num [x13]
  · have h3 : outlierFilter x13 = [9, 9, 9, 10, 10, 10, 10, 10, 10, 10, 11, 11] := by
      norm_num [outlierFilter, var_force, mean_force, x13, List.filter]
    rw [h3]
    simp [x13]

/-- Claim C6 (amended): step 3 never consults the IQR: whenever the sample
variance is positive, its output equals its input exactly when every
sample is within the mean + 3 std bound, irrespective of how many samples
an IQR filter would remove. -/
theorem outlier_filter_characterization (l : List ℚ) (v : ℚ)
    (hv : var_force l = some v) (h0 : 0 < v) :
    outlierFilter l = l ↔
      ∀ x ∈ l, x ≤ mean_force l ∨ (x - mean_force l) ^ 2 ≤ 9 * v := by
  unfold outlierFilter
  simp only [hv]
  rw [if_pos h0, List.filter_eq_self]
  simp only [decide_eq_true_eq]

/-- Witness for C6's amended theorem at [1, 2] (variance 1/2, everything
within bound, filter output equal to input). -/
theorem outlier_filter_characterization_witness :
    var_force [(1 : ℚ), 2] = some (1 / 2) ∧ (0 : ℚ) < 1 / 2 ∧
    (outlierFilter [(1 : ℚ), 2] = [(1 : ℚ), 2] ↔
      ∀ x ∈ [(1 : ℚ), 2], x ≤ mean_force [(1 : ℚ), 2] ∨
        (x - mean_force [(1 : ℚ), 2]) ^ 2 ≤ 9 * (1 / 2)) := by
  have hv : var_force [(1 : ℚ), 2] = some (1 / 2) := by
    norm_num [var_force, mean_force]
  exact ⟨hv, by norm_num,
    outlier_filter_characterization [(1 : ℚ), 2] (1 / 2) hv (by norm_num)⟩

end BendTest
